import Mathlib

/-!
Shallow embedding of the GCP provider adapter (`kvirt/providers/gcp/__init__.py`,
class `Kgcp`) and proofs about its specification.

Modelling conventions:
* Backend calls are recorded as explicit `GEvent` values; a method is embedded as
  a pure function from a small backend-state structure to its returned value
  together with the ordered list of backend calls it issued.
* Python results: the adapter returns dictionaries `{'result': 'success'}` /
  `{'result': 'failure', 'reason': r}`, or falls off the end of the function
  (Python `None`).  These three outcomes are the type `KResult`.
* Python integers are `Nat` (all quantities involved are non-negative); the one
  float comparison (`memory < 921.6`) is embedded as `memory * 10 < 9216`.
* A Python value whose runtime type may be `int` or `str` (the `memory` /
  `numcpus` arguments of the update methods, compared against fragments of the
  machine-type string) is the sum type `PyVal`, with Python's `==` semantics:
  an `int` never equals a `str`.
* `sleep(n)` calls are counted as elapsed time units.
-/

namespace Kgcp

/-- Outcome of a public adapter method: a tagged success, a tagged failure with a
human-readable reason, or Python `None` (a bare `return` / falling off the end). -/
inductive KResult where
  | success : KResult
  | failure (reason : String) : KResult
  | pyNone : KResult
deriving DecidableEq, Repr

/-- A backend call issued by the adapter.  Calls that only read remote state are
distinguished from mutating calls by `GEvent.isMutation`. -/
inductive GEvent where
  | getInstance (name : String)
  | listNetworks
  | listSubnets
  | listBuckets
  | insertInstance (name : String)
  | insertNetwork (name : String)
  | insertSubnet (name : String)
  | insertFirewall (name : String)
  | insertAddress (name : String)
  | updateAccessConfig (name : String)
  | setMachineType (name machineType : String)
  | updateNetworkInterface (name : String)
  | deleteFirewall (name : String)
  | deleteForwardingRule (name : String)
  | deleteAddress (name : String)
  | deleteBackendService (name : String)
  | deleteRegionHealthCheck (name : String)
  | deleteHealthCheck (name : String)
  | deleteInstanceGroup (name : String)
  | deleteDnsRecords (name : String)
  | createBucket (name : String)
  | aclGrant (name : String)
  | dnsChangesCreate
deriving DecidableEq, Repr

/-- Mutating backend calls (anything that creates, updates or deletes a remote
resource, including a DNS change-set submission). -/
def GEvent.isMutation : GEvent → Bool
  | .getInstance _ => false
  | .listNetworks => false
  | .listSubnets => false
  | .listBuckets => false
  | _ => true

/-- A trace containing no mutating backend call. -/
def mutationFree (l : List GEvent) : Bool := l.all (fun e => ! e.isMutation)

/-- Worker for `pySplit`: split a character list at each occurrence of the
separator, accumulating the current token in reverse.  The fuel argument makes
the recursion structural; each step consumes at least one character, so a fuel
of `length + 1` is never exhausted. -/
def splitGo (sep : List Char) : Nat → List Char → List Char → List (List Char)
  | _, acc, [] => [acc.reverse]
  | 0, acc, l => [acc.reverse ++ l]
  | fuel + 1, acc, c :: cs =>
    if sep.isPrefixOf (c :: cs) then
      acc.reverse :: splitGo sep fuel [] ((c :: cs).drop sep.length)
    else
      splitGo sep fuel (c :: acc) cs

/-- Python `s.split(sep)` for a non-empty separator (left-to-right,
non-overlapping). -/
def pySplit (s sep : String) : List String :=
  (splitGo sep.data (s.data.length + 1) [] s.data).map (fun l => ⟨l⟩)

/-- Worker for `pyReplace`, with the same fuel scheme as `splitGo`. -/
def replaceGo (old new : List Char) : Nat → List Char → List Char
  | _, [] => []
  | 0, l => l
  | fuel + 1, c :: cs =>
    if old.isPrefixOf (c :: cs) then
      new ++ replaceGo old new fuel ((c :: cs).drop old.length)
    else
      c :: replaceGo old new fuel cs

/-- Python `s.replace(old, new)` for a non-empty `old` (every occurrence,
left to right, non-overlapping). -/
def pyReplace (s old new : String) : String :=
  if old.data = [] then s else ⟨replaceGo old.data new.data (s.data.length + 1) s.data⟩

/-- Python `s.startswith(pre)`. -/
def pyStartsWith (s pre : String) : Bool := pre.data.isPrefixOf s.data

/-- Python `int(s)` for a plain non-negative decimal literal, `none` when the
string is not one. -/
def strToNat (s : String) : Option Nat :=
  if s.data ≠ [] ∧ s.data.all (fun c => c.isDigit) then
    some (s.data.foldl (fun acc c => acc * 10 + (c.toNat - 48)) 0)
  else none

/-- Python `sub in s` for a non-empty needle `sub`: `s.split(sub)` has at least
two parts exactly when `sub` occurs in `s`. -/
def pyContains (s sub : String) : Bool := (pySplit s sub).length ≥ 2

/-- `os.path.basename`: the fragment after the last `/`. -/
def basename (s : String) : String := (pySplit s "/").getLastD s

/-- An error raised by a backend lookup: a genuine 404 or any other (e.g.
transient) fault.  The adapter's bare `except:` clauses catch both alike. -/
inductive GcpError where
  | notFound : GcpError
  | transient (msg : String) : GcpError
deriving DecidableEq, Repr

/-- A Python value that may be an `int` or a `str` at runtime. -/
inductive PyVal where
  | pyInt (n : Nat) : PyVal
  | pyStr (s : String) : PyVal
deriving DecidableEq, Repr

/-- Python `==` on such values: `int == str` is always `False` (no coercion). -/
def pyEq : PyVal → PyVal → Bool
  | .pyInt a, .pyInt b => a == b
  | .pyStr a, .pyStr b => a == b
  | _, _ => false

/-- Python f-string interpolation of such a value. -/
def PyVal.interp : PyVal → String
  | .pyInt n => toString n
  | .pyStr s => s

/-! ### Operation Waiter (`Kgcp._wait_for_operation`, lines 48-73)

The poll at iteration `k` is `poll k`; `timeout` counts the `sleep(1)` calls
performed so far, and each iteration either observes `DONE` (and stops) or
sleeps once, so at iteration `k` the counter equals `k`.  The guard
`if timeout > 60: return` runs before the poll of each iteration, so iteration
61 returns without polling.  The loop body has no fuel in the source; the
counter bounds the iterations at 62, which the `fuel` argument realizes
exactly (it is never exhausted when started at 62). -/

/-- Status reported by the backend for a long-running operation. -/
inductive OpStatus where
  | opDone : OpStatus
  | opPending : OpStatus
deriving DecidableEq, Repr

/-- One loop of `_wait_for_operation`, returning the number of `sleep(1)` calls
still to be performed when the counter is `t`. -/
def waitGo (poll : Nat → OpStatus) : Nat → Nat → Nat
  | 0, _ => 0
  | fuel + 1, t =>
    if t > 60 then 0
    else
      match poll t with
      | .opDone => 0
      | .opPending => 1 + waitGo poll fuel (t + 1)

/-- Total number of `sleep(1)` calls (elapsed time units) of
`_wait_for_operation` against the poll stream `poll`. -/
def waitSleeps (poll : Nat → OpStatus) : Nat := waitGo poll 62 0

/-- `_wait_for_operation`'s returned signal together with its elapsed time: the
source returns via a bare `return` (timeout) or by leaving the loop (DONE), both
of which yield Python `None` — there is no failure signal in either case. -/
def waitForOperation (poll : Nat → OpStatus) : Option String × Nat :=
  (none, waitSleeps poll)

/-! ### Custom machine-type synthesis (`Kgcp.create`, lines 116-127) -/

/-- The machine-type computation of `create` when no explicit flavor is given
(lines 116-127): validity checks on `numcpus`/`memory`, the 2048 floor for
multi-cpu shapes, the `custom-<numcpus>-<memory>` identifier, and the
`memory < 921.6` override to the canonical `f1-micro` flavor. -/
def createMachineType (numcpus memory : Nat) : Except String String :=
  if numcpus ≠ 1 ∧ numcpus % 2 ≠ 0 then .error "Number of cpus is not even"
  else if memory ≠ 512 ∧ memory % 1024 ≠ 0 then .error "Memory is not multiple of 1024"
  else
    let memory1 := if 1 < numcpus ∧ memory < 2048 then 2048 else memory
    let machine_type := "custom-" ++ toString numcpus ++ "-" ++ toString memory1
    if memory1 * 10 < 9216 then .ok "f1-micro" else .ok machine_type

/-! ### Existence probe and the guarded prefix of `create`

`exists` (lines 78-86) wraps `instances().get` in a bare `try/except`: any
exception — a genuine 404 or a transient backend fault — yields `False`.
`create` (lines 100-374) is embedded up to its guard stack: the pre-flight
existence probe (113-114), the machine-type checks (116-130), the
networks/subnets listing reads (154-155) and the network-resolution check
(177-185).  Each later step of the source (extra-disk inserts at line 233, the
Kubernetes firewall insert at line 324, the instance insert at line 369) is a
mutation issued only after all of these guards have passed; the model
summarizes that remainder as the single `insertInstance` submission.  `nets`
entries are modelled as plain strings (the dict form only adds per-interface
fields that none of the claims touch). -/

/-- Backend state consulted by `create`: the per-name result of
`instances().get`, and the two name sets of `list_networks`/`list_subnets`
(a subnet carries the project it belongs to, field `az`). -/
structure ComputeBackend where
  instanceLookup : String → Except GcpError Unit
  networks : List String
  subnets : List (String × String)

/-- `Kgcp.exists` (lines 78-86): `True` on a successful lookup, `False` on any
exception whatsoever (the `except:` clause is bare). -/
def existsVM (bk : ComputeBackend) (name : String) : Bool :=
  match bk.instanceLookup name with
  | .ok _ => true
  | .error _ => false

/-- A network name is resolvable when it names a known subnet (preferred) or a
known network (lines 177-185). -/
def netResolvable (bk : ComputeBackend) (n : String) : Bool :=
  bk.subnets.any (fun s => s.1 == n) || bk.networks.contains n

/-- The guarded prefix of `Kgcp.create` with its backend-call trace. -/
def create (bk : ComputeBackend) (name : String) (flavor : Option String)
    (numcpus memory : Nat) (nets : List String) : KResult × List GEvent :=
  let ev0 := [GEvent.getInstance name]
  if existsVM bk name then
    (.failure ("VM " ++ name ++ " already exists"), ev0)
  else
    let shaped : Except String String :=
      match flavor with
      | none => createMachineType numcpus memory
      | some f => .ok f
    match shaped with
    | .error r => (.failure r, ev0)
    | .ok _ =>
      let ev1 := ev0 ++ [GEvent.listNetworks, GEvent.listSubnets]
      match nets.find? (fun n => ! netResolvable bk n) with
      | some n => (.failure (n ++ " not in subnets nor in networks"), ev1)
      | none => (.success, ev1 ++ [GEvent.insertInstance name])

/-! ### `create_network` (lines 875-905)

The source inserts the network (line 880) *before* it validates the CIDR
(lines 884-887); on an invalid CIDR it returns a tagged failure having already
created the network, and only the subnet and firewall creations are skipped.
`ip_network` is the external `ipaddress.ip_network` collaborator, modelled as
an executable strict IPv4 validity check (four octets ≤ 255, optional prefix
≤ 32, host bits zero). -/

/-- Numeric value of a dotted-quad IPv4 address, when well-formed. -/
def ipv4Value (s : String) : Option Nat :=
  match pySplit s "." with
  | [a, b, c, d] =>
    match strToNat a, strToNat b, strToNat c, strToNat d with
    | some a, some b, some c, some d =>
      if a ≤ 255 ∧ b ≤ 255 ∧ c ≤ 255 ∧ d ≤ 255 then
        some (((a * 256 + b) * 256 + c) * 256 + d)
      else none
    | _, _, _, _ => none
  | _ => none

/-- Model of the external `ipaddress.ip_network` validity check (IPv4, strict:
host bits below the prefix must be zero). -/
def cidrWellFormed (s : String) : Bool :=
  match pySplit s "/" with
  | [addr] => (ipv4Value addr).isSome
  | [addr, pfx] =>
    match ipv4Value addr, strToNat pfx with
    | some v, some p => p ≤ 32 && v % 2 ^ (32 - p) == 0
    | _, _ => false
  | _ => false

/-- `Kgcp.create_network`: `createSubnet` is `overrides.get('create_subnet',
True)`, `dualCidr` is `overrides['dual_cidr']` when present. -/
def create_network (name : String) (cidr : Option String) (createSubnet : Bool)
    (dualCidr : Option String) : KResult × List GEvent :=
  let ev0 := [GEvent.insertNetwork name]
  let fw := GEvent.insertFirewall ("allow-ssh-" ++ name)
  match createSubnet, cidr with
  | true, some c =>
    if ! cidrWellFormed c then (.failure ("Invalid Cidr " ++ c), ev0)
    else
      match dualCidr with
      | some dc =>
        if ! cidrWellFormed dc then (.failure ("Invalid Dual Cidr " ++ dc), ev0)
        else (.success, ev0 ++ [GEvent.insertSubnet name, fw])
      | none => (.success, ev0 ++ [GEvent.insertSubnet name, fw])
  | _, _ => (.success, ev0 ++ [fw])

/-! ### Shape updates (`update_flavor` 698-717, `update_memory` 719-742,
`update_cpus` 744-767)

The instance record carries its remote `status` string and the full
`machineType` URL, of which `os.path.basename` is taken.  In `update_memory`
and `update_cpus` the current cpu/memory fragments come from
`machinetype.split('-')[1:]`, i.e. they are *strings*, while the requested
value is whatever the caller passed (normally an `int`): the comparison uses
Python `==`, embedded as `pyEq`.  The unpacking assumes a machine type of
exactly three `-`-separated parts (`custom-<c>-<m>`), which the model mirrors
with positional access. -/

/-- The fields of an `instances().get` response used by the update methods. -/
structure VMInfo where
  status : String
  machineType : String
deriving DecidableEq, Repr

/-- `Kgcp.update_flavor` (lines 698-717). -/
def update_flavor (lookup : Except GcpError VMInfo) (name flavor : String) :
    KResult × List GEvent :=
  match lookup with
  | .error _ => (.failure ("VM " ++ name ++ " not found"), [GEvent.getInstance name])
  | .ok vm =>
    if vm.status == "RUNNING" || vm.status == "STOPPING" then
      (.failure ("VM " ++ name ++ " up"), [GEvent.getInstance name])
    else
      let machinetype := basename vm.machineType
      if machinetype == flavor then (.success, [GEvent.getInstance name])
      else (.success, [GEvent.getInstance name, GEvent.setMachineType name flavor])

/-- `Kgcp.update_memory` (lines 719-742). -/
def update_memory (lookup : Except GcpError VMInfo) (name : String) (memory : PyVal) :
    KResult × List GEvent :=
  match lookup with
  | .error _ => (.failure ("VM " ++ name ++ " not found"), [GEvent.getInstance name])
  | .ok vm =>
    if vm.status == "RUNNING" || vm.status == "STOPPING" then
      (.failure ("VM " ++ name ++ " up"), [GEvent.getInstance name])
    else
      let machinetype := basename vm.machineType
      if pyContains machinetype "custom" then
        let parts := pySplit machinetype "-"
        let currentcpus := parts.getD 1 ""
        let currentmemory := parts.getD 2 ""
        if pyEq memory (.pyStr currentmemory) then (.success, [GEvent.getInstance name])
        else
          (.success, [GEvent.getInstance name,
            GEvent.setMachineType name ("custom-" ++ currentcpus ++ "-" ++ memory.interp)])
      else (.success, [GEvent.getInstance name])

/-- `Kgcp.update_cpus` (lines 744-767). -/
def update_cpus (lookup : Except GcpError VMInfo) (name : String) (numcpus : PyVal) :
    KResult × List GEvent :=
  match lookup with
  | .error _ => (.failure ("VM " ++ name ++ " not found"), [GEvent.getInstance name])
  | .ok vm =>
    if vm.status == "RUNNING" || vm.status == "STOPPING" then
      (.failure ("VM " ++ name ++ " up"), [GEvent.getInstance name])
    else
      let machinetype := basename vm.machineType
      if pyContains machinetype "custom" then
        let parts := pySplit machinetype "-"
        let currentcpus := parts.getD 1 ""
        let currentmemory := parts.getD 2 ""
        if pyEq numcpus (.pyStr currentcpus) then (.success, [GEvent.getInstance name])
        else
          (.success, [GEvent.getInstance name,
            GEvent.setMachineType name ("custom-" ++ numcpus.interp ++ "-" ++ currentmemory)])
      else (.success, [GEvent.getInstance name])

/-! ### Cluster-aware DNS name parsing (`reserve_dns` 1072-1077, `delete_dns`
1143-1148; the two methods share this logic verbatim)

```
fqdn = f"{name}.{domain}"
if fqdn.split('-')[0] == fqdn.split('.')[1]:
    cluster = fqdn.split('-')[0]
    name = '.'.join(fqdn.split('.')[:1])
    domain = fqdn.replace(f"{name}.", '').replace(f"{cluster}.", '')
dnsentry = name if cluster is None else f"{name}.{cluster}"
```

`fqdn` always contains a `.` (it is `name + "." + domain`), so index 1 of the
dot-split exists whenever `domain` is non-degenerate; `getD _ ""` mirrors the
access.  Python `str.replace` replaces every occurrence, as does
`String.replace`. -/

/-- The fragment of `s` before its first `-` (all of `s` if none). -/
def beforeFirstHyphen (s : String) : String := (pySplit s "-").headD ""

/-- The second `.`-separated label of `s`. -/
def secondDotLabel (s : String) : String := (pySplit s ".").getD 1 ""

/-- Result of the cluster-prefix parsing convention. -/
structure DnsParse where
  cluster : Option String
  hostname : String
  domain : String
  dnsentry : String
deriving DecidableEq, Repr

/-- The name/domain parsing shared by `reserve_dns` and `delete_dns`. -/
def dnsNameParse (name domain : String) : DnsParse :=
  let fqdn := name ++ "." ++ domain
  if beforeFirstHyphen fqdn == secondDotLabel fqdn then
    let cluster := beforeFirstHyphen fqdn
    let name1 := (pySplit fqdn ".").headD ""
    let domain1 := pyReplace (pyReplace fqdn (name1 ++ ".") "") (cluster ++ ".") ""
    { cluster := some cluster, hostname := name1, domain := domain1,
      dnsentry := name1 ++ "." ++ cluster }
  else
    { cluster := none, hostname := name, domain := domain, dnsentry := name }

/-! ### DNS record construction (`reserve_dns` 1120-1136) -/

/-- A DNS resource record set as submitted to the zone. -/
structure DnsRecord where
  rname : String
  rtype : String
  ttl : Nat
  rrdatas : List String
deriving DecidableEq, Repr

/-- The name of the record created for the wildcard alias `*` (lines
1126-1130): `*.apps.<cluster>.<domain>.` on a cluster-style control-plane or
worker VM, `*.<name>.<domain>.` otherwise. -/
def wildcardName (cluster : Option String) (name domain : String) : String :=
  match cluster with
  | some c =>
    if pyContains name "ctlplane" || pyContains name "worker" then
      "*.apps." ++ c ++ "." ++ domain ++ "."
    else "*." ++ name ++ "." ++ domain ++ "."
  | none => "*." ++ name ++ "." ++ domain ++ "."

/-- The record added for one alias (lines 1125-1135): the wildcard alias `*`
becomes an A record at `wildcardName` holding the VM's address, any other alias
becomes a CNAME (qualified with the domain unless it already contains a dot)
whose data is the VM's own entry. -/
def aliasRecord (cluster : Option String) (name domain entry ip : String)
    (a : String) : DnsRecord :=
  if a == "*" then
    { rname := wildcardName cluster name domain, rtype := "A", ttl := 300, rrdatas := [ip] }
  else
    { rname := if pyContains a "." then a ++ "." else a ++ "." ++ domain ++ ".",
      rtype := "CNAME", ttl := 300, rrdatas := [entry] }

/-- The batched change-set built by one `reserve_dns` call: the VM's own A
record (data `dnsip`, the internal address when one was grabbed, otherwise the
public one) followed by one record per alias, submitted with a single
`changes.create()` (`submissions = 1`). -/
structure ChangeSet where
  records : List DnsRecord
  submissions : Nat
deriving DecidableEq, Repr

/-- Records and submission count of `reserve_dns` (lines 1120-1136). -/
def reserveDnsChanges (cluster : Option String) (name domain entry ip dnsip : String)
    (aliases : List String) : ChangeSet :=
  { records := { rname := entry, rtype := "A", ttl := 300, rrdatas := [dnsip] }
      :: aliases.map (aliasRecord cluster name domain entry ip),
    submissions := 1 }

/-! ### `reserve_dns` end-to-end outcome (lines 1064-1137)

The polling loops (`while counter != 100`, `counter += 10` on each miss,
`sleep(5)`) make at most 10 attempts; `pollIp` returns the first hit among
them.  The model takes the caller-supplied `domain` (the `nets[0]` fallback of
line 1066 and the dict-net `ip` of 1098-1099 are outside every claim) and
treats `nets` entries as strings.  When the public address had to be polled,
the source additionally inserts a static address and patches the access config
(lines 1109-1115); when no address is obtained it logs an error and executes a
bare `return` — Python `None`, not a tagged result (lines 1117-1119). -/

/-- Exact-name match used for the firewall, backend-service, health-check and
instance-group listings. -/
def nameMatch (name : String) (f : String) : Bool := f == name

/-- Forwarding-rule match (line 1365): exact name or `name-` prefix. -/
def fwdRuleMatch (name : String) (f : String) : Bool :=
  f == name || pyStartsWith f (name ++ "-")

/-- Address match on the `(name, domain-label)` pairs of the backend state. -/
def addrMatch (name : String) (a : String × Option String) : Bool := a.1 == name

/-- Remote resources consulted by `delete_loadbalancer`.  An address is a pair
of its name and the `domain` label it carries when that label is present and no
`dnsclient` label is (the only combination that triggers a DNS deletion). -/
structure LBState where
  firewalls : List String
  forwardingRules : List String
  addresses : List (String × Option String)
  backendServices : List String
  regionHealthChecks : List String
  healthChecks : List String
  instanceGroups : List String
deriving DecidableEq, Repr

/-- `Kgcp.delete_loadbalancer`: returned value, resulting backend state, and
the mutating calls issued.  The inner wait-for-disappearance loop after each
forwarding-rule delete (lines 1371-1382) exits at once here because deletion is
immediate in the state model. -/
def delete_loadbalancer (s : LBState) (name0 : String) : KResult × LBState × List GEvent :=
  let name := pyReplace name0 "." "-"
  let fwEv := (s.firewalls.filter (nameMatch name)).map GEvent.deleteFirewall
  let fwdEv := (s.forwardingRules.filter (fwdRuleMatch name)).map GEvent.deleteForwardingRule
  let addrEv :=
    match s.addresses.find? (addrMatch name) with
    | some (_, some _) => [GEvent.deleteDnsRecords name, GEvent.deleteAddress name]
    | some (_, none) => [GEvent.deleteAddress name]
    | none => []
  let bsEv := (s.backendServices.filter (nameMatch name)).map GEvent.deleteBackendService
  let rhcEv := (s.regionHealthChecks.filter (nameMatch name)).map GEvent.deleteRegionHealthCheck
  let hcEv := (s.healthChecks.filter (nameMatch name)).map GEvent.deleteHealthCheck
  let igEv := (s.instanceGroups.filter (nameMatch name)).map GEvent.deleteInstanceGroup
  let s1 : LBState :=
    { firewalls := s.firewalls.filter (fun f => ! nameMatch name f),
      forwardingRules := s.forwardingRules.filter (fun f => ! fwdRuleMatch name f),
      addresses := s.addresses.filter (fun a => ! addrMatch name a),
      backendServices := s.backendServices.filter (fun f => ! nameMatch name f),
      regionHealthChecks := s.regionHealthChecks.filter (fun f => ! nameMatch name f),
      healthChecks := s.healthChecks.filter (fun f => ! nameMatch name f),
      instanceGroups := s.instanceGroups.filter (fun f => ! nameMatch name f) }
  (.success, s1, fwEv ++ fwdEv ++ addrEv ++ bsEv ++ rhcEv ++ hcEv ++ igEv)

/-! ### `create_bucket` (lines 1463-1473) and `update_aliases` (lines 1579-1598) -/

theorem waitGo_le (poll : Nat → OpStatus) :
    ∀ fuel t, waitGo poll fuel t ≤ 61 - t := by
  intro fuel
  induction fuel with
  | zero => intro t; simp [waitGo]
  | succ n ih =>
    intro t
    simp only [waitGo]
    split
    · omega
    · cases hp : poll t with
      | opDone =>
        show (0 : Nat) ≤ 61 - t
        omega
      | opPending =>
        show 1 + waitGo poll n (t + 1) ≤ 61 - t
        have := ih (t + 1)
        omega

theorem waitGo_first_done (poll : Nat → OpStatus) (k : Nat) (hk : k ≤ 60)
    (hpend : ∀ j, j < k → poll j = OpStatus.opPending)
    (hdone : poll k = OpStatus.opDone) :
    ∀ fuel t, t ≤ k → k - t < fuel → waitGo poll fuel t = k - t := by
  intro fuel
  induction fuel with
  | zero => intro t _ hf; omega
  | succ n ih =>
    intro t ht hf
    simp only [waitGo]
    rw [if_neg (by omega)]
    rcases Nat.lt_or_ge t k with hlt | hge
    · rw [hpend t hlt]
      show 1 + waitGo poll n (t + 1) = k - t
      rw [ih (t + 1) (by omega) (by omega)]
      omega
    · have : t = k := by omega
      subst this
      rw [hdone]
      show (0 : Nat) = t - t
      omega

theorem filter_not_filter {α : Type} (p : α → Bool) (l : List α) :
    (l.filter (fun x => ! p x)).filter p = [] := by
  induction l with
  | nil => rfl
  | cons a t ih =>
    by_cases h : p a = true <;> simp [List.filter_cons, h, ih]

theorem filter_not_idem {α : Type} (p : α → Bool) (l : List α) :
    (l.filter (fun x => ! p x)).filter (fun x => ! p x) = l.filter (fun x => ! p x) := by
  induction l with
  | nil => rfl
  | cons a t ih =>
    by_cases h : p a = true <;> simp [List.filter_cons, h, ih]

theorem find?_false {α : Type} (l : List α) : l.find? (fun _ => false) = none := by
  induction l with
  | nil => rfl
  | cons a t ih => simp [List.find?, ih]

theorem find?_filter_not {α : Type} (p : α → Bool) (l : List α) :
    (l.filter (fun x => ! p x)).find? p = none := by
  rw [List.find?_eq_none]
  intro x hx
  have hmem := List.mem_filter.1 hx
  simp only [Bool.not_eq_true'] at hmem
  simp [hmem.2]

/-! ## Claim theorems -/

/-- C1, counterexample: against a backend that never reports `DONE`, the
Operation Waiter sleeps for 61 time units before returning — it does not return
within the claimed fixed wall-clock budget of 60 time units. -/
theorem c1_waiter_budget_counterexample :
    waitSleeps (fun _ => OpStatus.opPending) = 61 ∧
    ¬ waitSleeps (fun _ => OpStatus.opPending) ≤ 60 := by
  constructor <;> decide

/-- C1 (amended): the Operation Waiter always returns within 61 time units
(the guard `timeout > 60` allows one poll cycle beyond the stated budget of
60), polling at a 1-unit interval; it returns after exactly `k` time units when
the backend first reports `DONE` at poll `k` (for any `k` within the window);
and in every case — completion or timeout — it returns Python `None`, carrying
no failure signal, so the caller cannot distinguish the two. -/
theorem c1_waiter_amended :
    (∀ poll, waitSleeps poll ≤ 61 ∧ (waitForOperation poll).1 = none) ∧
    (∀ poll k, k ≤ 60 → (∀ j, j < k → poll j = OpStatus.opPending) →
      poll k = OpStatus.opDone → waitSleeps poll = k) := by
  constructor
  · intro poll
    refine ⟨?_, rfl⟩
    have := waitGo_le poll 62 0
    simpa [waitSleeps] using this
  · intro poll k hk hpend hdone
    have := waitGo_first_done poll k hk hpend hdone 62 0 (by omega) (by omega)
    simpa [waitSleeps] using this

/-- C1 witness: a backend that reports `DONE` at the fourth poll (index 3) is
waited on for exactly 3 time units. -/
theorem c1_waiter_amended_witness :
    waitSleeps (fun t => if t < 3 then OpStatus.opPending else OpStatus.opDone) = 3 :=
  c1_waiter_amended.2 _ 3 (by decide) (by decide) (by decide)

/-- C2, counterexample: the accepted combination of 1 cpu and 512 MB does not
produce the custom identifier `custom-1-512`; the `memory < 921.6` branch
replaces it with the canonical flavor `f1-micro`. -/
theorem c2_shape_counterexample :
    createMachineType 1 512 = Except.ok "f1-micro" ∧
    createMachineType 1 512 ≠ Except.ok "custom-1-512" := by
  constructor
  · rfl
  · intro h
    have h0 : createMachineType 1 512 = Except.ok "f1-micro" := rfl
    rw [h0] at h
    exact absurd (Except.ok.inj h) (by decide)

/-- The machine-type identifier the amended C2 predicts for an accepted
cpu/memory pair: memory is floored to 2048 when more than one cpu is used, and
a floored memory below 921.6 MB (in particular the accepted value 512 with one
cpu) yields the canonical flavor `f1-micro` instead of a custom identifier. -/
def c2PredictedShape (n m : Nat) : String :=
  let mf := if 1 < n ∧ m < 2048 then 2048 else m
  if mf ≤ 921 then "f1-micro" else "custom-" ++ toString n ++ "-" ++ toString mf

/-- C2 (amended): with no explicit flavor, `create` accepts a cpu/memory pair
exactly when the cpu count is 1 or even and the memory is 512 or a multiple of
1024, and on a rejected pair (for a name whose existence probe found nothing)
it returns the tagged shape failure with only the probe's read issued — no
backend mutation; every accepted pair deterministically yields
`custom-<numcpus>-<memory>` with the memory first floored to 2048 when more
than one cpu is used — except that a floored memory below 921.6 MB yields
`f1-micro` instead. -/
theorem c2_shape_amended :
    ∀ n m : Nat,
      ((∃ mt, createMachineType n m = Except.ok mt) ↔
        ((n = 1 ∨ n % 2 = 0) ∧ (m = 512 ∨ m % 1024 = 0))) ∧
      (∀ mt, createMachineType n m = Except.ok mt → mt = c2PredictedShape n m) ∧
      (∀ (bk : ComputeBackend) (name : String) (nets : List String) (r : String),
        existsVM bk name = false →
        createMachineType n m = Except.error r →
        create bk name none n m nets =
          (KResult.failure r, [GEvent.getInstance name]) ∧
        mutationFree (create bk name none n m nets).2 = true) := by
  intro n m
  have hC : ∀ (bk : ComputeBackend) (name : String) (nets : List String) (r : String),
      existsVM bk name = false →
      createMachineType n m = Except.error r →
      create bk name none n m nets =
        (KResult.failure r, [GEvent.getInstance name]) ∧
      mutationFree (create bk name none n m nets).2 = true := by
    intro bk name nets r hex herr
    constructor
    · simp [create, hex, herr]
    · simp [create, hex, herr, mutationFree, GEvent.isMutation]
  have hAB : ((∃ mt, createMachineType n m = Except.ok mt) ↔
        ((n = 1 ∨ n % 2 = 0) ∧ (m = 512 ∨ m % 1024 = 0))) ∧
      (∀ mt, createMachineType n m = Except.ok mt → mt = c2PredictedShape n m) := by
    unfold createMachineType c2PredictedShape
    by_cases h1 : n ≠ 1 ∧ n % 2 ≠ 0
    · rw [if_pos h1]
      constructor
      · constructor
        · rintro ⟨mt, hmt⟩; cases hmt
        · intro h; omega
      · intro mt hmt; cases hmt
    · rw [if_neg h1]
      by_cases h2 : m ≠ 512 ∧ m % 1024 ≠ 0
      · rw [if_pos h2]
        constructor
        · constructor
          · rintro ⟨mt, hmt⟩; cases hmt
          · intro h; omega
        · intro mt hmt; cases hmt
      · rw [if_neg h2]
        constructor
        · constructor
          · intro _; omega
          · intro _
            by_cases h3 : (if 1 < n ∧ m < 2048 then 2048 else m) * 10 < 9216
            · exact ⟨"f1-micro", by rw [if_pos h3]⟩
            · exact ⟨_, by rw [if_neg h3]⟩
        · intro mt hmt
          by_cases h3 : (if 1 < n ∧ m < 2048 then 2048 else m) * 10 < 9216
          · rw [if_pos h3] at hmt
            cases hmt
            rw [if_pos (by omega : (if 1 < n ∧ m < 2048 then 2048 else m) ≤ 921)]
          · rw [if_neg h3] at hmt
            cases hmt
            rw [if_neg (by omega : ¬ (if 1 < n ∧ m < 2048 then 2048 else m) ≤ 921)]
  exact ⟨hAB.1, hAB.2, hC⟩

/-- C2 witness: 2 cpus with 1024 MB are accepted, the memory is floored to
2048, and the synthesized identifier is `custom-2-2048`; 3 cpus (odd, not 1)
with 1024 MB are rejected by `create` with the tagged failure and a
mutation-free trace. -/
theorem c2_shape_amended_witness :
    (((2 : Nat) = 1 ∨ (2 : Nat) % 2 = 0) ∧ ((1024 : Nat) = 512 ∨ (1024 : Nat) % 1024 = 0)) ∧
    "custom-2-2048" = c2PredictedShape 2 1024 ∧
    create ⟨fun _ => Except.error GcpError.notFound, ["default"], []⟩ "vm1" none 3 1024
        ["default"] =
      (KResult.failure "Number of cpus is not even", [GEvent.getInstance "vm1"]) ∧
    mutationFree (create ⟨fun _ => Except.error GcpError.notFound, ["default"], []⟩ "vm1"
        none 3 1024 ["default"]).2 = true :=
  ⟨⟨by omega, by omega⟩,
   (c2_shape_amended 2 1024).2.1 "custom-2-2048" rfl,
   ((c2_shape_amended 3 1024).2.2 ⟨fun _ => Except.error GcpError.notFound, ["default"], []⟩
      "vm1" ["default"] "Number of cpus is not even" rfl rfl).1,
   ((c2_shape_amended 3 1024).2.2 ⟨fun _ => Except.error GcpError.notFound, ["default"], []⟩
      "vm1" ["default"] "Number of cpus is not even" rfl rfl).2⟩

/-- C3: when the pre-flight existence probe succeeds, `create` returns a tagged
failure naming the collision and its trace contains no mutating backend call
(only the probe's read). -/
theorem c3_name_collision :
    ∀ (bk : ComputeBackend) (name : String) (flavor : Option String)
      (numcpus memory : Nat) (nets : List String),
      bk.instanceLookup name = Except.ok () →
      create bk name flavor numcpus memory nets =
        (KResult.failure ("VM " ++ name ++ " already exists"), [GEvent.getInstance name]) ∧
      mutationFree (create bk name flavor numcpus memory nets).2 = true := by
  intro bk name flavor n m nets h
  have hex : existsVM bk name = true := by simp [existsVM, h]
  refine ⟨?_, ?_⟩ <;>
    simp [create, hex, mutationFree, GEvent.isMutation]

/-- C3 witness: on a backend whose instance lookup succeeds, creating `vm1`
fails with the collision reason and issues no mutation. -/
theorem c3_name_collision_witness :
    create ⟨fun _ => Except.ok (), ["default"], []⟩ "vm1" none 2 2048 ["default"] =
      (KResult.failure ("VM " ++ "vm1" ++ " already exists"), [GEvent.getInstance "vm1"]) ∧
    mutationFree
      (create ⟨fun _ => Except.ok (), ["default"], []⟩ "vm1" none 2 2048 ["default"]).2 = true :=
  c3_name_collision ⟨fun _ => Except.ok (), ["default"], []⟩ "vm1" none 2 2048 ["default"] rfl

/-- C4, counterexample: `create_network` with the malformed CIDR
`300.0.0.0/24` (and subnet auto-creation requested) returns the tagged failure
— but its trace already contains the network insertion, a mutating backend
call, so the CIDR is not validated before every backend mutation. -/
theorem c4_cidr_counterexample :
    create_network "net1" (some "300.0.0.0/24") true none =
      (KResult.failure "Invalid Cidr 300.0.0.0/24", [GEvent.insertNetwork "net1"]) ∧
    mutationFree (create_network "net1" (some "300.0.0.0/24") true none).2 = false := by
  constructor <;> rfl

/-- C4 (amended): on a malformed CIDR with subnet auto-creation requested,
`create_network` returns a tagged failure, but only after having created (and
waited on) the network itself; the CIDR is validated before the subnet and the
firewall rule are created, so the network insertion is the only mutation
issued. -/
theorem c4_invalid_cidr_amended :
    ∀ (name c : String) (dual : Option String),
      cidrWellFormed c = false →
      create_network name (some c) true dual =
        (KResult.failure ("Invalid Cidr " ++ c), [GEvent.insertNetwork name]) ∧
      ∀ e ∈ (create_network name (some c) true dual).2, e = GEvent.insertNetwork name := by
  intro name c dual h
  refine ⟨?_, ?_⟩ <;> simp [create_network, h]

/-- C4 witness: the malformed CIDR `notacidr` triggers the amended behavior on
a concrete call. -/
theorem c4_invalid_cidr_amended_witness :
    create_network "net2" (some "notacidr") true none =
      (KResult.failure ("Invalid Cidr " ++ "notacidr"), [GEvent.insertNetwork "net2"]) ∧
    ∀ e ∈ (create_network "net2" (some "notacidr") true none).2,
      e = GEvent.insertNetwork "net2" :=
  c4_invalid_cidr_amended "net2" "notacidr" none rfl

/-- C5: evaluation at the failing input.  On a stopped (`TERMINATED`) instance
whose machine type is `custom-2-2048`, requesting the already-matching memory
2048 (an integer, as callers pass it) makes `update_memory` issue a
`setMachineType` mutation instead of the intended no-op, because Python's
`2048 == "2048"` is `False` (the fragment parsed from the machine-type string
is a `str`); the same slip is in `update_cpus`.  The short-circuit does fire
when the requested value is the *string* `"2048"`, showing the dead no-op
branch; the running-instance gate and the `update_flavor` no-op (a `str`/`str`
comparison) behave as the claim states. -/
theorem c5_update_noop_eval :
    update_memory (Except.ok ⟨"TERMINATED", "zones/z/machineTypes/custom-2-2048"⟩)
        "vm1" (PyVal.pyInt 2048) =
      (KResult.success, [GEvent.getInstance "vm1",
        GEvent.setMachineType "vm1" "custom-2-2048"]) ∧
    mutationFree (update_memory (Except.ok ⟨"TERMINATED", "zones/z/machineTypes/custom-2-2048"⟩)
        "vm1" (PyVal.pyInt 2048)).2 = false ∧
    update_memory (Except.ok ⟨"TERMINATED", "zones/z/machineTypes/custom-2-2048"⟩)
        "vm1" (PyVal.pyStr "2048") =
      (KResult.success, [GEvent.getInstance "vm1"]) ∧
    update_cpus (Except.ok ⟨"TERMINATED", "zones/z/machineTypes/custom-2-2048"⟩)
        "vm1" (PyVal.pyInt 2) =
      (KResult.success, [GEvent.getInstance "vm1",
        GEvent.setMachineType "vm1" "custom-2-2048"]) ∧
    update_flavor (Except.ok ⟨"RUNNING", "zones/z/machineTypes/custom-2-2048"⟩)
        "vm1" "e2-small" =
      (KResult.failure "VM vm1 up", [GEvent.getInstance "vm1"]) ∧
    update_memory (Except.ok ⟨"RUNNING", "zones/z/machineTypes/custom-2-2048"⟩)
        "vm1" (PyVal.pyInt 4096) =
      (KResult.failure "VM vm1 up", [GEvent.getInstance "vm1"]) ∧
    update_flavor (Except.ok ⟨"TERMINATED", "zones/z/machineTypes/custom-2-2048"⟩)
        "vm1" "custom-2-2048" =
      (KResult.success, [GEvent.getInstance "vm1"]) := by
  refine ⟨rfl, rfl, rfl, rfl, rfl, rfl, rfl⟩

/-- C6: the cluster-prefix rule of `reserve_dns`/`delete_dns` extracts a
cluster exactly when the fragment before the first hyphen of the
fully-qualified name equals its second dot-separated label; on extraction the
effective record name is `<host>.<cluster>` (the host being the fqdn's first
label), otherwise the name is used unchanged.  Concretely: `ctlplane-0` under
`mycluster.example.com` has fragment `ctlplane` versus second label
`mycluster`, so no cluster is extracted; `ctlplane-0` under
`ctlplane.example.com` extracts cluster `ctlplane` and yields entry
`ctlplane-0.ctlplane`. -/
theorem c6_cluster_prefix_rule :
    ∀ name domain : String,
      ((dnsNameParse name domain).cluster =
        if beforeFirstHyphen (name ++ "." ++ domain) ==
            secondDotLabel (name ++ "." ++ domain) then
          some (beforeFirstHyphen (name ++ "." ++ domain))
        else none) ∧
      ((dnsNameParse name domain).dnsentry =
        if beforeFirstHyphen (name ++ "." ++ domain) ==
            secondDotLabel (name ++ "." ++ domain) then
          (pySplit (name ++ "." ++ domain) ".").headD "" ++ "." ++
            beforeFirstHyphen (name ++ "." ++ domain)
        else name) ∧
      (dnsNameParse "ctlplane-0" "mycluster.example.com").cluster = none ∧
      (dnsNameParse "ctlplane-0" "mycluster.example.com").dnsentry = "ctlplane-0" ∧
      (dnsNameParse "ctlplane-0" "ctlplane.example.com").cluster = some "ctlplane" ∧
      (dnsNameParse "ctlplane-0" "ctlplane.example.com").dnsentry = "ctlplane-0.ctlplane" := by
  intro name domain
  refine ⟨?_, ?_, rfl, rfl, rfl, rfl⟩ <;>
    · simp only [dnsNameParse]
      split <;> simp_all

/-- C7: in a `reserve_dns` change-set the wildcard alias `*` yields an A record
named `*.apps.<cluster>.<domain>.` when a cluster was extracted and the VM name
contains `ctlplane` or `worker`, and `*.<name>.<domain>.` on a non-cluster VM;
every non-wildcard alias yields a CNAME whose data is the VM's own entry; all
records of the call go into the single batched change-set (one
`changes.create()` submission). -/
theorem c7_wildcard_alias_expansion :
    ∀ (cluster : Option String) (name domain entry ip dnsip : String)
      (aliases : List String),
      (reserveDnsChanges cluster name domain entry ip dnsip aliases).submissions = 1 ∧
      (∀ a ∈ aliases, aliasRecord cluster name domain entry ip a ∈
        (reserveDnsChanges cluster name domain entry ip dnsip aliases).records) ∧
      (∀ c, cluster = some c →
        (pyContains name "ctlplane" || pyContains name "worker") = true →
        aliasRecord cluster name domain entry ip "*" =
          { rname := "*.apps." ++ c ++ "." ++ domain ++ ".", rtype := "A", ttl := 300,
            rrdatas := [ip] }) ∧
      (cluster = none →
        aliasRecord cluster name domain entry ip "*" =
          { rname := "*." ++ name ++ "." ++ domain ++ ".", rtype := "A", ttl := 300,
            rrdatas := [ip] }) ∧
      (∀ a, a ≠ "*" →
        (aliasRecord cluster name domain entry ip a).rtype = "CNAME" ∧
        (aliasRecord cluster name domain entry ip a).rrdatas = [entry]) := by
  intro cluster name domain entry ip dnsip aliases
  refine ⟨rfl, ?_, ?_, ?_, ?_⟩
  · intro a ha
    exact List.mem_cons_of_mem _ (List.mem_map_of_mem _ ha)
  · intro c hc hct
    subst hc
    simp [aliasRecord, wildcardName, hct]
  · intro hc
    subst hc
    simp [aliasRecord, wildcardName]
  · intro a ha
    have hne : (a == "*") = false := by simpa using ha
    constructor <;> simp [aliasRecord, hne]

/-- C7 witness: the spec's own examples — `*` on cluster VM `ctlplane-0` in
cluster `mycluster` under `example.com` targets `*.apps.mycluster.example.com.`,
`*` on the non-cluster VM `standalone` targets `*.standalone.example.com.`, and
the plain alias `api` becomes a CNAME pointing at the VM's entry. -/
theorem c7_wildcard_alias_expansion_witness :
    aliasRecord (some "mycluster") "ctlplane-0" "example.com" "e" "1.2.3.4" "*" =
      { rname := "*.apps.mycluster.example.com.", rtype := "A", ttl := 300,
        rrdatas := ["1.2.3.4"] } ∧
    aliasRecord none "standalone" "example.com" "e" "1.2.3.4" "*" =
      { rname := "*.standalone.example.com.", rtype := "A", ttl := 300,
        rrdatas := ["1.2.3.4"] } ∧
    (aliasRecord none "standalone" "example.com" "standalone.example.com."
        "1.2.3.4" "api").rtype = "CNAME" ∧
    (aliasRecord none "standalone" "example.com" "standalone.example.com."
        "1.2.3.4" "api").rrdatas = ["standalone.example.com."] :=
  ⟨(c7_wildcard_alias_expansion (some "mycluster") "ctlplane-0" "example.com" "e"
      "1.2.3.4" "d" []).2.2.1 "mycluster" rfl (by decide),
   (c7_wildcard_alias_expansion none "standalone" "example.com" "e"
      "1.2.3.4" "d" []).2.2.2.1 rfl,
   ((c7_wildcard_alias_expansion none "standalone" "example.com"
      "standalone.example.com." "1.2.3.4" "d" []).2.2.2.2 "api" (by decide)).1,
   ((c7_wildcard_alias_expansion none "standalone" "example.com"
      "standalone.example.com." "1.2.3.4" "d" []).2.2.2.2 "api" (by decide)).2⟩

/-- C8: `delete_loadbalancer` is idempotent — the first call returns success,
and a second call immediately after returns success, issues no mutating call at
all (every constituent deletion step tolerates the now-absent resource), and
leaves the backend state unchanged. -/
theorem c8_delete_loadbalancer_idempotent :
    ∀ (s : LBState) (name : String),
      (delete_loadbalancer s name).1 = KResult.success ∧
      (delete_loadbalancer (delete_loadbalancer s name).2.1 name).1 = KResult.success ∧
      (delete_loadbalancer (delete_loadbalancer s name).2.1 name).2.2 = [] ∧
      (delete_loadbalancer (delete_loadbalancer s name).2.1 name).2.1 =
        (delete_loadbalancer s name).2.1 := by
  intro s name
  refine ⟨rfl, rfl, ?_, ?_⟩
  · simp [delete_loadbalancer, filter_not_filter, find?_filter_not, find?_false]
  · simp [delete_loadbalancer, filter_not_idem]

/-- C10: whenever the backend instance lookup raises — a genuine not-found or
any transient fault — the existence probe returns `False`, and `create`
consequently proceeds past its collision check and attempts the creation
(reaching the instance submission when the rest of its inputs resolve). -/
theorem c10_lookup_failure_means_absent :
    ∀ (bk : ComputeBackend) (name : String) (e : GcpError),
      bk.instanceLookup name = Except.error e →
      existsVM bk name = false ∧
      (∀ nets : List String, (∀ n ∈ nets, netResolvable bk n = true) →
        ∀ flavor : String,
          create bk name (some flavor) 2 2048 nets =
            (KResult.success,
             [GEvent.getInstance name, GEvent.listNetworks, GEvent.listSubnets,
              GEvent.insertInstance name])) := by
  intro bk name e h
  have hex : existsVM bk name = false := by simp [existsVM, h]
  refine ⟨hex, ?_⟩
  intro nets hnets flavor
  have hfind : nets.find? (fun n => ! netResolvable bk n) = none := by
    rw [List.find?_eq_none]
    intro x hx
    simp [hnets x hx]
  simp [create, hex, hfind]

/-- C10 witness: a transient backend fault (e.g. a 503) on the lookup makes the
probe report absence, and `create` proceeds to submit the instance. -/
theorem c10_lookup_failure_means_absent_witness :
    existsVM ⟨fun _ => Except.error (GcpError.transient "503"), ["default"], []⟩ "vm1" =
      false ∧
    create ⟨fun _ => Except.error (GcpError.transient "503"), ["default"], []⟩ "vm1"
        (some "e2-medium") 2 2048 ["default"] =
      (KResult.success,
       [GEvent.getInstance "vm1", GEvent.listNetworks, GEvent.listSubnets,
        GEvent.insertInstance "vm1"]) :=
  ⟨(c10_lookup_failure_means_absent ⟨fun _ => Except.error (GcpError.transient "503"),
      ["default"], []⟩ "vm1" (GcpError.transient "503") rfl).1,
   (c10_lookup_failure_means_absent ⟨fun _ => Except.error (GcpError.transient "503"),
      ["default"], []⟩ "vm1" (GcpError.transient "503") rfl).2 ["default"]
      (by decide) "e2-medium"⟩

end Kgcp
